import Mathlib

/-!
Verification of the canvas view-state and spatial-layout engine of the
techwishlist dashboard (src/src/App.jsx and the drag/resize components).
JavaScript numbers are modelled as rationals; all embedded operations are
exact translations of the corresponding source functions.
-/

namespace TechWishlist

/-- Camera state from App.jsx, the viewState object holding pan offset and
zoom scale. -/
structure ViewState where
  x : ℚ
  y : ℚ
  scale : ℚ
  deriving Repr, DecidableEq

/-- A 2-D point, used for entity positions and pointer deltas. -/
structure Pt where
  x : ℚ
  y : ℚ
  deriving Repr, DecidableEq

/-- handleZoomIn from App.jsx: scale becomes min of scale plus 0.1 and 5,
pan untouched. -/
def handleZoomIn (v : ViewState) : ViewState :=
  { v with scale := min (v.scale + 1/10) 5 }

/-- handleZoomOut from App.jsx: scale becomes max of scale minus 0.1 and 0.1,
pan untouched. -/
def handleZoomOut (v : ViewState) : ViewState :=
  { v with scale := max (v.scale - 1/10) (1/10) }

/-- handleReset from App.jsx: camera returns to the default view. -/
def handleReset : ViewState := ⟨0, 0, 1⟩

/-- handleWheel from App.jsx. When Ctrl or Meta is held the wheel zooms:
the scale delta is negated deltaY times the 0.001 sensitivity, clamped into
the interval from 0.1 to 5. Otherwise the event pans: the negated wheel
deltas are added to the pan offset with no scale compensation. -/
def handleWheel (v : ViewState) (deltaX deltaY : ℚ) (ctrlOrMeta : Bool) :
    ViewState :=
  if ctrlOrMeta then
    { v with scale := min (max (1/10) (v.scale + (-deltaY * (1/1000)))) 5 }
  else
    { v with x := v.x - deltaX, y := v.y - deltaY }

/-- The layout state mutated by handleDragEnd in App.jsx: the form widget
position, the logo widget position, and the per-card position map. -/
structure LayoutState where
  formPos : Pt
  logoPos : Pt
  positions : String → Option Pt

/-- handleDragEnd from App.jsx. A missing delta is a no-op; otherwise the
cumulative screen-space delta is divided by the camera scale and added to
the origin position of the dragged entity, selected by the active id. A
card with no stored position falls back to the origin point. -/
def handleDragEnd (scale : ℚ) (st : LayoutState) (activeId : String)
    (delta : Option Pt) : LayoutState :=
  match delta with
  | none => st
  | some d =>
    let adjusted : Pt := ⟨d.x / scale, d.y / scale⟩
    if activeId = "tech-form-widget" then
      { st with formPos := ⟨st.formPos.x + adjusted.x, st.formPos.y + adjusted.y⟩ }
    else if activeId = "brand-logo-widget" then
      { st with logoPos := ⟨st.logoPos.x + adjusted.x, st.logoPos.y + adjusted.y⟩ }
    else
      let current := (st.positions activeId).getD ⟨0, 0⟩
      { st with positions := fun k =>
          if k = activeId then
            some ⟨current.x + adjusted.x, current.y + adjusted.y⟩
          else st.positions k }

/-- checkEdge from the auto-pan effect in App.jsx: pan velocity as a
function of the pointer viewport coordinates and the viewport size. The
four edge tests run in sequence; a later matching test overwrites the value
set by an earlier one on the same axis. -/
def checkEdge (x y vw vh : ℚ) : ℚ × ℚ :=
  let dx0 : ℚ := if x < 100 then min 25 ((100 - x) / 2) else 0
  let dx : ℚ := if x > vw - 100 then -(min 25 ((x - (vw - 100)) / 2)) else dx0
  let dy0 : ℚ := if y < 100 then min 25 ((100 - y) / 2) else 0
  let dy : ℚ := if y > vh - 100 then -(min 25 ((y - (vh - 100)) / 2)) else dy0
  (dx, dy)

/-- An entity size with numeric width and height, as written by the card
resize path. -/
structure Size where
  w : ℚ
  h : ℚ
  deriving Repr, DecidableEq

/-- handleResizeStart of TechCard.jsx records the origin size, falling back
to the 280 by 72 card default when no size is stored. -/
def cardResizeStart (size : Option Size) : Size :=
  ⟨(size.map Size.w).getD 280, (size.map Size.h).getD 72⟩

/-- The mouse-move body of the resize effect in TechCard.jsx: the raw pixel
delta from the gesture origin is added to the origin size and the result is
clamped to the card bounds, width into the interval from 200 to 600 and
height into the interval from 60 to 400. -/
def cardResizeMove (origin : Size) (dx dy : ℚ) : Size :=
  ⟨min 600 (max 200 (origin.w + dx)), min 400 (max 60 (origin.h + dy))⟩

/-- handleResizeCard from App.jsx: stores the incoming size for the given
id verbatim (the clamping happened in the gesture handler). -/
def handleResizeCard (sizes : String → Option Size) (id : String)
    (newSize : Size) : String → Option Size :=
  fun k => if k = id then some newSize else sizes k

/-- The stored height of the form widget, which may be the literal string
auto or a concrete pixel value. -/
inductive FormHeight where
  | auto : FormHeight
  | px (h : ℚ) : FormHeight
  deriving Repr, DecidableEq

/-- The form widget size: numeric width, height possibly auto. -/
structure FormSize where
  w : ℚ
  h : FormHeight
  deriving Repr, DecidableEq

/-- handleResizeStart of TechFormWidget.jsx records the origin size,
falling back to width 360 and height auto when no size is stored. -/
def formResizeStart (size : Option FormSize) : FormSize :=
  ⟨(size.map FormSize.w).getD 360, (size.map FormSize.h).getD FormHeight.auto⟩

/-- The mouse-move body of the resize effect in TechFormWidget.jsx: width
is the origin width plus dx clamped into the interval from 320 to 600; an
auto origin height is replaced by the 300 baseline before dy is added, and
the height is clamped into the interval from 200 to 600. -/
def formResizeMove (origin : FormSize) (dx dy : ℚ) : Size :=
  let newW := min 600 (max 320 (origin.w + dx))
  let currentH : ℚ := match origin.h with
    | FormHeight.px h => h
    | FormHeight.auto => 300
  let newH := min 600 (max 200 (currentH + dy))
  ⟨newW, newH⟩

/-- The grid slot for the n-th entity lacking a position, from
calculateGridPositions in App.jsx: column n mod cols, row n div cols, using
card width 280, card height 72 and gaps of 16, below the 400 pixel band. -/
def gridStep (cols n : ℕ) : Pt :=
  ⟨((n % cols : ℕ) : ℚ) * (280 + 16), 400 + ((n / cols : ℕ) : ℚ) * (72 + 16)⟩

/-- The forEach loop of calculateGridPositions: walk the tech ids in list
order, skip ids that already hold a position, and assign the next grid slot
to each id lacking one, incrementing the counter of unpositioned ids. -/
def calcGo (cols : ℕ) (techs : List String) (pos : String → Option Pt)
    (nextIndex : ℕ) : String → Option Pt :=
  match techs with
  | [] => pos
  | t :: ts =>
    match pos t with
    | some _ => calcGo cols ts pos nextIndex
    | none =>
      calcGo cols ts
        (fun k => if k = t then some (gridStep cols nextIndex) else pos k)
        (nextIndex + 1)

/-- calculateGridPositions from App.jsx: the column count is the container
width divided by the 296 pixel column pitch, floored, and at least 1. -/
def calculateGridPositions (techs : List String)
    (existing : String → Option Pt) (containerWidth : ℕ) :
    String → Option Pt :=
  calcGo (max 1 (containerWidth / (280 + 16))) techs existing 0

/-- The outcome of reading one localStorage key and running it through
JSON.parse, which the initializers in App.jsx do without any try/catch:
the key may be absent (getItem returned null, so the parse is skipped), the
stored string may be syntactically malformed (JSON.parse throws), or it
parses to a payload of the expected shape. -/
inductive Stored (α : Type) where
  | missing : Stored α
  | malformed : Stored α
  | parsed (v : α) : Stored α

/-- The positions lazy initializer in App.jsx: a missing blob yields the
empty map, a malformed blob makes JSON.parse throw, and a parsed blob is
sanitized entrywise by clamping x and y to be non-negative. -/
def initPositions (s : Stored (List (String × Pt))) :
    Except Unit (List (String × Pt)) :=
  match s with
  | Stored.missing => Except.ok []
  | Stored.malformed => Except.error ()
  | Stored.parsed parsed =>
      Except.ok (parsed.map fun kv => (kv.1, ⟨max 0 kv.2.x, max 0 kv.2.y⟩))

/-- The sizes lazy initializer in App.jsx: missing yields the empty map,
malformed throws, and a parsed blob is returned as is. -/
def initSizes (s : Stored (List (String × Size))) :
    Except Unit (List (String × Size)) :=
  match s with
  | Stored.missing => Except.ok []
  | Stored.malformed => Except.error ()
  | Stored.parsed m => Except.ok m

/-- The formPos lazy initializer in App.jsx: missing yields the 20, 140
default, malformed throws, and a parsed point is clamped coordinatewise to
be non-negative. -/
def initFormPos (s : Stored Pt) : Except Unit Pt :=
  match s with
  | Stored.missing => Except.ok ⟨20, 140⟩
  | Stored.malformed => Except.error ()
  | Stored.parsed p => Except.ok ⟨max 0 p.x, max 0 p.y⟩

/-- The formSize lazy initializer in App.jsx: missing yields width 360 and
height auto, malformed throws, and a parsed size is returned as is. -/
def initFormSize (s : Stored FormSize) : Except Unit FormSize :=
  match s with
  | Stored.missing => Except.ok ⟨360, FormHeight.auto⟩
  | Stored.malformed => Except.error ()
  | Stored.parsed v => Except.ok v

/-- The logoPos lazy initializer in App.jsx: missing yields the 400, 20
default, malformed throws, and a parsed point is clamped coordinatewise to
be non-negative. -/
def initLogoPos (s : Stored Pt) : Except Unit Pt :=
  match s with
  | Stored.missing => Except.ok ⟨400, 20⟩
  | Stored.malformed => Except.error ()
  | Stored.parsed p => Except.ok ⟨max 0 p.x, max 0 p.y⟩

/-- The viewState lazy initializer in App.jsx: missing yields the default
camera, malformed throws, and a parsed camera is returned as is. -/
def initViewState (s : Stored ViewState) : Except Unit ViewState :=
  match s with
  | Stored.missing => Except.ok ⟨0, 0, 1⟩
  | Stored.malformed => Except.error ()
  | Stored.parsed v => Except.ok v

/-- The auto-pan resources of App.jsx: the isDraggingItem flag, whether the
16 millisecond tick interval held in autoPanIntervalRef is live, and the
currentPanVelocity ref. -/
structure AutoPanState where
  isDraggingItem : Bool
  intervalActive : Bool
  velocity : ℚ × ℚ
  deriving Repr, DecidableEq

/-- Events acting on the auto-pan resources. dragStart is
handleGlobalDragStart followed by the effect body for a live drag, which
creates the interval and attaches the pointer listeners. pointerMove is the
window mousemove or touchmove listener, live only while a drag is active.
dragEndEvent is the body of handleGlobalDragEnd. effectRun is one run of
the auto-pan useEffect body after a flag change. -/
inductive APEvent where
  | dragStart : APEvent
  | pointerMove (x y vw vh : ℚ) : APEvent
  | dragEndEvent : APEvent
  | effectRun : APEvent

/-- One step of the auto-pan lifecycle, translated from App.jsx:
handleGlobalDragStart sets the flag and the drag effect creates the
interval; the pointer listeners recompute the velocity through checkEdge
while a drag is active; handleGlobalDragEnd clears the flag, clears the
interval and zeroes the velocity; the effect body clears the interval and
zeroes the velocity whenever the flag is down, and keeps the interval alive
while it is up. -/
def apStep (s : AutoPanState) : APEvent → AutoPanState
  | APEvent.dragStart => ⟨true, true, s.velocity⟩
  | APEvent.pointerMove x y vw vh =>
      if s.isDraggingItem then ⟨true, s.intervalActive, checkEdge x y vw vh⟩
      else s
  | APEvent.dragEndEvent => ⟨false, false, (0, 0)⟩
  | APEvent.effectRun =>
      if s.isDraggingItem then ⟨true, true, s.velocity⟩
      else ⟨false, false, (0, 0)⟩

/-- States reachable from the initial mounted state (no drag, no interval,
zero velocity) by any interleaving of auto-pan events. -/
inductive APReachable : AutoPanState → Prop
  | init : APReachable ⟨false, false, (0, 0)⟩
  | step (s : AutoPanState) (e : APEvent) :
      APReachable s → APReachable (apStep s e)

/-- The first component of checkEdge, with the sequential overwriting of dx
made explicit: the right-edge test, when it fires, wins over the left-edge
test. -/
theorem checkEdge_fst (x y vw vh : ℚ) :
    (checkEdge x y vw vh).1 =
      if x > vw - 100 then -(min 25 ((x - (vw - 100)) / 2))
      else if x < 100 then min 25 ((100 - x) / 2) else 0 := rfl

/-- The second component of checkEdge, analogous to checkEdge_fst. -/
theorem checkEdge_snd (x y vw vh : ℚ) :
    (checkEdge x y vw vh).2 =
      if y > vh - 100 then -(min 25 ((y - (vh - 100)) / 2))
      else if y < 100 then min 25 ((100 - y) / 2) else 0 := rfl

/-- C1: ending an entity drag divides the cumulative screen delta by the
camera scale and commits origin plus the canvas-space delta, for the form
widget, the logo widget and a card with a stored position; with scale 2 and
screen delta 100, 40 the canvas delta is 50, 20. -/
theorem C1_drag_end_divides_delta_by_scale (s : ℚ) (_hs : 0 < s)
    (st : LayoutState) (d : Pt) :
    (handleDragEnd s st ("tech-form-widget") (some d)).formPos =
      ⟨st.formPos.x + d.x / s, st.formPos.y + d.y / s⟩ ∧
    (handleDragEnd s st ("brand-logo-widget") (some d)).logoPos =
      ⟨st.logoPos.x + d.x / s, st.logoPos.y + d.y / s⟩ ∧
    (∀ (cid : String) (p : Pt), cid ≠ "tech-form-widget" →
      cid ≠ "brand-logo-widget" → st.positions cid = some p →
      (handleDragEnd s st cid (some d)).positions cid =
        some ⟨p.x + d.x / s, p.y + d.y / s⟩) ∧
    ((⟨(100 : ℚ) / 2, (40 : ℚ) / 2⟩ : Pt) = ⟨50, 20⟩) ∧
    (handleDragEnd 2
        ⟨⟨20, 140⟩, ⟨400, 20⟩,
          fun k => if k = "react" then some ⟨10, 30⟩ else none⟩
        ("react") (some ⟨100, 40⟩)).positions ("react") = some ⟨60, 50⟩ := by
  refine ⟨rfl, rfl, ?_, by norm_num, ?_⟩
  · intro cid p h1 h2 hp
    simp [handleDragEnd, if_neg h1, if_neg h2, hp]
  · have hne1 : ("react" : String) ≠ "tech-form-widget" := by decide
    have hne2 : ("react" : String) ≠ "brand-logo-widget" := by decide
    simp only [handleDragEnd, if_neg hne1, if_neg hne2, if_pos rfl,
      Option.getD_some]
    norm_num [Pt.mk.injEq]

/-- C1 witness: the concrete scenario instance of the drag-end theorem. -/
theorem C1_witness :
    (handleDragEnd 2
        ⟨⟨20, 140⟩, ⟨400, 20⟩,
          fun k => if k = "react" then some ⟨10, 30⟩ else none⟩
        ("react") (some ⟨100, 40⟩)).positions ("react") = some ⟨60, 50⟩ :=
  (C1_drag_end_divides_delta_by_scale 2 (by norm_num)
      ⟨⟨20, 140⟩, ⟨400, 20⟩,
        fun k => if k = "react" then some ⟨10, 30⟩ else none⟩
      ⟨100, 40⟩).2.2.2.2

/-- C2: in a viewport at least 200 pixels wide and tall, the auto-pan
velocity follows the piecewise edge rules, is exactly zero when the pointer
is more than 100 pixels from every edge, is nonzero on both axes in a
corner, and equals 25, 0 for the pointer at 50, 400 in a 1200 by 800
viewport. -/
theorem C2_autopan_velocity (x y vw vh : ℚ)
    (hw : 200 ≤ vw) (hh : 200 ≤ vh) :
    (x < 100 → (checkEdge x y vw vh).1 = min 25 ((100 - x) / 2)) ∧
    (vw - 100 < x → (checkEdge x y vw vh).1 = -(min 25 ((x - (vw - 100)) / 2))) ∧
    (y < 100 → (checkEdge x y vw vh).2 = min 25 ((100 - y) / 2)) ∧
    (vh - 100 < y → (checkEdge x y vw vh).2 = -(min 25 ((y - (vh - 100)) / 2))) ∧
    (100 < x → x < vw - 100 → 100 < y → y < vh - 100 →
      checkEdge x y vw vh = (0, 0)) ∧
    (x < 100 → y < 100 →
      0 < (checkEdge x y vw vh).1 ∧ 0 < (checkEdge x y vw vh).2) ∧
    checkEdge 50 400 1200 800 = (25, 0) := by
  refine ⟨?_, ?_, ?_, ?_, ?_, ?_, ?_⟩
  · intro h
    rw [checkEdge_fst, if_neg (by linarith : ¬ x > vw - 100), if_pos h]
  · intro h
    rw [checkEdge_fst, if_pos h]
  · intro h
    rw [checkEdge_snd, if_neg (by linarith : ¬ y > vh - 100), if_pos h]
  · intro h
    rw [checkEdge_snd, if_pos h]
  · intro h1 h2 h3 h4
    have e1 : (checkEdge x y vw vh).1 = 0 := by
      rw [checkEdge_fst, if_neg (by linarith : ¬ x > vw - 100),
        if_neg (by linarith : ¬ x < 100)]
    have e2 : (checkEdge x y vw vh).2 = 0 := by
      rw [checkEdge_snd, if_neg (by linarith : ¬ y > vh - 100),
        if_neg (by linarith : ¬ y < 100)]
    exact Prod.ext e1 e2
  · intro h1 h2
    constructor
    · rw [checkEdge_fst, if_neg (by linarith : ¬ x > vw - 100), if_pos h1]
      exact lt_min (by norm_num) (by linarith)
    · rw [checkEdge_snd, if_neg (by linarith : ¬ y > vh - 100), if_pos h2]
      exact lt_min (by norm_num) (by linarith)
  · norm_num [checkEdge]

/-- C2 witness: the concrete scenario instance of the velocity theorem. -/
theorem C2_witness : checkEdge 50 400 1200 800 = (25, 0) :=
  (C2_autopan_velocity 50 400 1200 800 (by norm_num)
    (by norm_num)).2.2.2.2.2.2

/-- C4 counterexample: starting at scale 4.95, which is strictly inside
the clamp interval and is neither boundary, zoomIn clamps to 5 and zoomOut
then yields 4.9, so the round trip does not return the original scale. -/
theorem C4_counterexample :
    (handleZoomOut (handleZoomIn ⟨0, 0, 99/20⟩)).scale = 49/10 ∧
    (99/20 : ℚ) ≠ 49/10 ∧ (99/20 : ℚ) ≠ 1/10 ∧ (99/20 : ℚ) ≠ 5 ∧
    (1/10 : ℚ) < 99/20 ∧ (99/20 : ℚ) < 5 := by
  norm_num [handleZoomIn, handleZoomOut]

/-- C4 amended: zoomIn adds 0.1 clamped to at most 5 and zoomOut subtracts
0.1 clamped to at least 0.1; the zoomIn-zoomOut round trip returns the
scale exactly for every start in the interval from 0.1 to 4.9, while for
every start above 4.9 up to 5, where the zoomIn clamp binds, it returns
4.9; the clamps are idempotent at the two boundaries. -/
theorem C4_zoom_roundtrip_amended :
    (∀ v : ViewState, (handleZoomIn v).scale = min (v.scale + 1/10) 5) ∧
    (∀ v : ViewState, (handleZoomOut v).scale = max (v.scale - 1/10) (1/10)) ∧
    (∀ v : ViewState, 1/10 ≤ v.scale → v.scale ≤ 49/10 →
      (handleZoomOut (handleZoomIn v)).scale = v.scale) ∧
    (∀ v : ViewState, 49/10 < v.scale → v.scale ≤ 5 →
      (handleZoomOut (handleZoomIn v)).scale = 49/10) ∧
    (∀ v : ViewState, v.scale = 5 → (handleZoomIn v).scale = 5) ∧
    (∀ v : ViewState, v.scale = 1/10 → (handleZoomOut v).scale = 1/10) := by
  refine ⟨fun v => rfl, fun v => rfl, ?_, ?_, ?_, ?_⟩
  · intro v h1 h2
    show max (min (v.scale + 1/10) 5 - 1/10) (1/10) = v.scale
    rw [min_eq_left (by linarith)]
    have hv : v.scale + 1/10 - 1/10 = v.scale := by ring
    rw [hv, max_eq_left h1]
  · intro v h1 h2
    show max (min (v.scale + 1/10) 5 - 1/10) (1/10) = 49/10
    rw [min_eq_right (by linarith)]
    norm_num
  · intro v h
    show min (v.scale + 1/10) 5 = 5
    rw [h]; norm_num
  · intro v h
    show max (v.scale - 1/10) (1/10) = 1/10
    rw [h]; norm_num

/-- C4 witness: the round trip at scale 2 returns exactly 2. -/
theorem C4_witness : (handleZoomOut (handleZoomIn ⟨0, 0, 2⟩)).scale = 2 :=
  C4_zoom_roundtrip_amended.2.2.1 ⟨0, 0, 2⟩ (by norm_num) (by norm_num)

/-- C5: with the zoom modifier held, a wheel event sets the scale to the
old scale plus negated deltaY times 0.001 clamped into the interval from
0.1 to 5 and leaves the pan offset unchanged; without it, the wheel event
subtracts the raw deltas from the pan offset, with no division by scale,
and leaves the scale unchanged. -/
theorem C5_wheel_zoom_and_pan (v : ViewState) (dX dY : ℚ) :
    ((handleWheel v dX dY true).scale
        = min (max (1/10) (v.scale + (-dY * (1/1000)))) 5 ∧
      (handleWheel v dX dY true).x = v.x ∧
      (handleWheel v dX dY true).y = v.y) ∧
    ((handleWheel v dX dY false).x = v.x - dX ∧
      (handleWheel v dX dY false).y = v.y - dY ∧
      (handleWheel v dX dY false).scale = v.scale) :=
  ⟨⟨rfl, rfl, rfl⟩, rfl, rfl, rfl⟩

/-- C3: every size committed through the resize write path is within the
entity-class bounds, cards in 200 to 600 by 60 to 400 and the form widget
in 320 to 600 by 200 to 600, whatever the origin size and pointer delta;
the stored map holds exactly that clamped value; and a card resize
requesting height 10 stores height 60. -/
theorem C3_setsize_clamped_to_class_bounds :
    (∀ (origin : Size) (dx dy : ℚ),
      200 ≤ (cardResizeMove origin dx dy).w ∧
      (cardResizeMove origin dx dy).w ≤ 600 ∧
      60 ≤ (cardResizeMove origin dx dy).h ∧
      (cardResizeMove origin dx dy).h ≤ 400) ∧
    (∀ (origin : FormSize) (dx dy : ℚ),
      320 ≤ (formResizeMove origin dx dy).w ∧
      (formResizeMove origin dx dy).w ≤ 600 ∧
      200 ≤ (formResizeMove origin dx dy).h ∧
      (formResizeMove origin dx dy).h ≤ 600) ∧
    (∀ (sizes : String → Option Size) (id : String) (origin : Size)
        (dx dy : ℚ),
      handleResizeCard sizes id (cardResizeMove origin dx dy) id =
        some (cardResizeMove origin dx dy)) ∧
    cardResizeMove (cardResizeStart (some ⟨280, 72⟩)) 0 (-62) = ⟨280, 60⟩ := by
  refine ⟨?_, ?_, ?_, ?_⟩
  · intro origin dx dy
    exact ⟨le_min (by norm_num) (le_max_left _ _), min_le_left _ _,
      le_min (by norm_num) (le_max_left _ _), min_le_left _ _⟩
  · intro origin dx dy
    exact ⟨le_min (by norm_num) (le_max_left _ _), min_le_left _ _,
      le_min (by norm_num) (le_max_left _ _), min_le_left _ _⟩
  · intro sizes id origin dx dy
    simp [handleResizeCard]
  · norm_num [cardResizeMove, cardResizeStart, Size.mk.injEq]

/-- C10: when a resize gesture starts while the stored form-widget height
is auto, every resize move yields width equal to the origin width plus dx
clamped into 320 to 600, and height equal to 300 plus dy clamped into 200
to 600 — the auto height is replaced using the concrete 300 pixel
baseline. -/
theorem C10_form_auto_height_uses_300_baseline (w dx dy : ℚ) :
    formResizeMove (formResizeStart (some ⟨w, FormHeight.auto⟩)) dx dy =
      ⟨min 600 (max 320 (w + dx)), min 600 (max 200 (300 + dy))⟩ := by
  simp [formResizeMove, formResizeStart]

/-- Unfolding lemma: the grid walk skips an id that already holds a
position. -/
theorem calcGo_cons_some (cols : ℕ) (t : String) (ts : List String)
    (pos : String → Option Pt) (n : ℕ) (q : Pt) (h : pos t = some q) :
    calcGo cols (t :: ts) pos n = calcGo cols ts pos n := by
  simp [calcGo, h]

/-- Unfolding lemma: the grid walk assigns the next grid slot to an id
lacking a position and increments the counter. -/
theorem calcGo_cons_none (cols : ℕ) (t : String) (ts : List String)
    (pos : String → Option Pt) (n : ℕ) (h : pos t = none) :
    calcGo cols (t :: ts) pos n =
      calcGo cols ts
        (fun k => if k = t then some (gridStep cols n) else pos k) (n + 1) := by
  simp [calcGo, h]

/-- The grid walk never changes an entry that already holds a position. -/
theorem calcGo_preserves (cols : ℕ) :
    ∀ (techs : List String) (pos : String → Option Pt) (n : ℕ)
      (id : String) (p : Pt), pos id = some p →
      calcGo cols techs pos n id = some p := by
  intro techs
  induction techs with
  | nil => intro pos n id p h; exact h
  | cons t ts ih =>
    intro pos n id p h
    cases hpt : pos t with
    | some q => rw [calcGo_cons_some cols t ts pos n q hpt]; exact ih pos n id p h
    | none =>
      rw [calcGo_cons_none cols t ts pos n hpt]
      apply ih
      have hne : id ≠ t := by
        intro he; rw [he, hpt] at h; exact Option.noConfusion h
      simp [if_neg hne, h]

/-- The grid walk assigns the k-th entity currently lacking a position, in
list order, the grid slot with index nextIndex plus k. -/
theorem calcGo_assigns (cols : ℕ) :
    ∀ (techs : List String) (pos : String → Option Pt) (n : ℕ),
      techs.Nodup →
      ∀ (k : ℕ) (id : String),
        (techs.filter fun t => (pos t).isNone).get? k = some id →
        calcGo cols techs pos n id = some (gridStep cols (n + k)) := by
  intro techs
  induction techs with
  | nil => intro pos n _ k id h; simp at h
  | cons t ts ih =>
    intro pos n hnd k id h
    have hnd' : ts.Nodup := hnd.of_cons
    have htn : t ∉ ts := (List.nodup_cons.mp hnd).1
    cases hpt : pos t with
    | some q =>
      have hfil : (t :: ts).filter (fun s => (pos s).isNone) =
          ts.filter fun s => (pos s).isNone := by
        simp [List.filter_cons, hpt]
      rw [hfil] at h
      rw [calcGo_cons_some cols t ts pos n q hpt]
      exact ih pos n hnd' k id h
    | none =>
      have hfil : (t :: ts).filter (fun s => (pos s).isNone) =
          t :: (ts.filter fun s => (pos s).isNone) := by
        simp [List.filter_cons, hpt]
      rw [hfil] at h
      rw [calcGo_cons_none cols t ts pos n hpt]
      have hfil2 : ts.filter
          (fun s => ((if s = t then some (gridStep cols n) else pos s) :
            Option Pt).isNone) = ts.filter fun s => (pos s).isNone := by
        apply List.filter_congr
        intro s hs
        have hne : s ≠ t := fun he => htn (he ▸ hs)
        simp [if_neg hne]
      cases k with
      | zero =>
        have hid : id = t := by
          have := (by simpa using h : t = id)
          exact this.symm
        subst hid
        have hpos2 : (if id = id then some (gridStep cols n) else pos id) =
            some (gridStep cols n) := by simp
        simpa using calcGo_preserves cols ts _ (n + 1) id _ hpos2
      | succ k0 =>
        have h0 : (ts.filter fun s => (pos s).isNone).get? k0 = some id := by
          simpa using h
        have := ih (fun s => if s = t then some (gridStep cols n) else pos s)
          (n + 1) hnd' k0 id (by rw [hfil2]; exact h0)
        rw [this]
        congr 2
        omega

/-- C6: grid assignment leaves every already-stored position unchanged and
gives the k-th entity lacking a position, in list order, column k mod cols
and row k div cols at the 296 pixel column pitch below the 400 pixel band,
with cols the floored container width over 296 and at least 1; with width
900 there are 3 columns and index 3 lands at column 0, row 1. -/
theorem C6_grid_assignment :
    (∀ (techs : List String) (existing : String → Option Pt) (w : ℕ)
        (id : String) (p : Pt), existing id = some p →
        calculateGridPositions techs existing w id = some p) ∧
    (∀ (techs : List String) (existing : String → Option Pt) (w : ℕ),
        techs.Nodup →
        ∀ (k : ℕ) (id : String),
          (techs.filter fun t => (existing t).isNone).get? k = some id →
          calculateGridPositions techs existing w id =
            some (gridStep (max 1 (w / (280 + 16))) k)) ∧
    (max 1 (900 / (280 + 16)) = 3) ∧
    ((3 : ℕ) % 3 = 0 ∧ (3 : ℕ) / 3 = 1) ∧
    gridStep 3 3 = ⟨0, 400 + 1 * (72 + 16)⟩ := by
  refine ⟨?_, ?_, by norm_num, by norm_num, ?_⟩
  · intro techs existing w id p h
    exact calcGo_preserves _ techs existing 0 id p h
  · intro techs existing w hnd k id h
    simpa using calcGo_assigns _ techs existing 0 hnd k id h
  · norm_num [gridStep, Pt.mk.injEq]

/-- C6 witness: four fresh entities in a 900 pixel container, the fourth
one landing in the second row, first column. -/
theorem C6_witness :
    calculateGridPositions (["a", "b", "c", "d"]) (fun _ => none) 900 ("d") =
      some (gridStep 3 3) := by
  have h := C6_grid_assignment.2.1 (["a", "b", "c", "d"]) (fun _ => none) 900
    (by decide) 3 ("d") (by decide)
  have h2 : max 1 (900 / (280 + 16)) = 3 := by norm_num
  rw [h2] at h
  exact h

/-- C7 counterexample: a syntactically malformed stored blob is not treated
as absent — the positions and view-state initializers run JSON.parse
unguarded, so loading throws instead of falling back to the default. -/
theorem C7_counterexample :
    initPositions Stored.malformed = Except.error () ∧
    initViewState Stored.malformed = Except.error () :=
  ⟨rfl, rfl⟩

/-- C7 amended: a missing stored value is treated as absent and every state
falls back to its default, and a well-formed parsed value never makes
loading throw; but a syntactically malformed stored value makes every
initializer propagate the JSON.parse exception rather than fall back. -/
theorem C7_load_fallback_amended :
    initPositions Stored.missing = Except.ok [] ∧
    initSizes Stored.missing = Except.ok [] ∧
    initFormPos Stored.missing = Except.ok ⟨20, 140⟩ ∧
    initFormSize Stored.missing = Except.ok ⟨360, FormHeight.auto⟩ ∧
    initLogoPos Stored.missing = Except.ok ⟨400, 20⟩ ∧
    initViewState Stored.missing = Except.ok ⟨0, 0, 1⟩ ∧
    (∀ v, ∃ r, initPositions (Stored.parsed v) = Except.ok r) ∧
    (∀ v, ∃ r, initSizes (Stored.parsed v) = Except.ok r) ∧
    (∀ v, ∃ r, initFormPos (Stored.parsed v) = Except.ok r) ∧
    (∀ v, ∃ r, initFormSize (Stored.parsed v) = Except.ok r) ∧
    (∀ v, ∃ r, initLogoPos (Stored.parsed v) = Except.ok r) ∧
    (∀ v, ∃ r, initViewState (Stored.parsed v) = Except.ok r) ∧
    initPositions Stored.malformed = Except.error () ∧
    initSizes Stored.malformed = Except.error () ∧
    initFormPos Stored.malformed = Except.error () ∧
    initFormSize Stored.malformed = Except.error () ∧
    initLogoPos Stored.malformed = Except.error () ∧
    initViewState Stored.malformed = Except.error () :=
  ⟨rfl, rfl, rfl, rfl, rfl, rfl,
    fun _v => ⟨_, rfl⟩, fun _v => ⟨_, rfl⟩, fun _v => ⟨_, rfl⟩,
    fun _v => ⟨_, rfl⟩, fun _v => ⟨_, rfl⟩, fun _v => ⟨_, rfl⟩,
    rfl, rfl, rfl, rfl, rfl, rfl⟩

/-- C8: loading a persisted position clamps a negative coordinate to 0 and
returns a position with non-negative coordinates unchanged, for card
positions, the form-widget position and the logo-widget position. -/
theorem C8_load_position_clamped (x y : ℚ) :
    (0 ≤ x → 0 ≤ y →
      initPositions (Stored.parsed [("id1", ⟨x, y⟩)]) =
        Except.ok [("id1", ⟨x, y⟩)] ∧
      initFormPos (Stored.parsed ⟨x, y⟩) = Except.ok ⟨x, y⟩ ∧
      initLogoPos (Stored.parsed ⟨x, y⟩) = Except.ok ⟨x, y⟩) ∧
    (x < 0 →
      initPositions (Stored.parsed [("id1", ⟨x, y⟩)]) =
        Except.ok [("id1", ⟨0, max 0 y⟩)] ∧
      initFormPos (Stored.parsed ⟨x, y⟩) = Except.ok ⟨0, max 0 y⟩ ∧
      initLogoPos (Stored.parsed ⟨x, y⟩) = Except.ok ⟨0, max 0 y⟩) ∧
    (y < 0 →
      initPositions (Stored.parsed [("id1", ⟨x, y⟩)]) =
        Except.ok [("id1", ⟨max 0 x, 0⟩)] ∧
      initFormPos (Stored.parsed ⟨x, y⟩) = Except.ok ⟨max 0 x, 0⟩ ∧
      initLogoPos (Stored.parsed ⟨x, y⟩) = Except.ok ⟨max 0 x, 0⟩) := by
  refine ⟨?_, ?_, ?_⟩
  · intro hx hy
    simp [initPositions, initFormPos, initLogoPos, max_eq_right hx,
      max_eq_right hy]
  · intro hx
    simp [initPositions, initFormPos, initLogoPos,
      max_eq_left (le_of_lt hx)]
  · intro hy
    simp [initPositions, initFormPos, initLogoPos,
      max_eq_left (le_of_lt hy)]

/-- C8 witness: a stored form position with negative x loads clamped to 0
on that axis and unchanged on the other. -/
theorem C8_witness :
    initFormPos (Stored.parsed ⟨-3, 7⟩) = Except.ok ⟨0, 7⟩ := by
  have h := ((C8_load_position_clamped (-3) 7).2.1 (by norm_num)).2.1
  simpa using h

/-- C9: in every reachable auto-pan state with no drag active, the tick
interval is torn down and the velocity is exactly zero; and the drag-end
handler itself synchronously clears the drag flag, clears the interval and
zeroes the velocity from any state. -/
theorem C9_idle_interval_down_velocity_zero :
    (∀ s : AutoPanState, APReachable s → s.isDraggingItem = false →
      s.intervalActive = false ∧ s.velocity = (0, 0)) ∧
    (∀ s : AutoPanState,
      (apStep s APEvent.dragEndEvent).isDraggingItem = false ∧
      (apStep s APEvent.dragEndEvent).intervalActive = false ∧
      (apStep s APEvent.dragEndEvent).velocity = (0, 0)) := by
  constructor
  · intro s hs
    induction hs with
    | init => intro _; exact ⟨rfl, rfl⟩
    | step s0 e ha ih =>
      cases e with
      | dragStart => intro h; exact absurd h (by simp [apStep])
      | pointerMove x y vw vh =>
        intro h
        by_cases hd : s0.isDraggingItem
        · exfalso; simp [apStep, hd] at h
        · have hd2 : s0.isDraggingItem = false := by simpa using hd
          simpa [apStep, hd2] using ih hd2
      | dragEndEvent => intro _; exact ⟨rfl, rfl⟩
      | effectRun =>
        intro h
        by_cases hd : s0.isDraggingItem
        · exfalso; simp [apStep, hd] at h
        · have hd2 : s0.isDraggingItem = false := by simpa using hd
          simp [apStep, hd2]
  · intro s
    exact ⟨rfl, rfl, rfl⟩

/-- C9 witness: after a drag starts and then ends, the reached state has no
live interval and zero velocity. -/
theorem C9_witness :
    (apStep (apStep ⟨false, false, (0, 0)⟩ APEvent.dragStart)
        APEvent.dragEndEvent).intervalActive = false ∧
    (apStep (apStep ⟨false, false, (0, 0)⟩ APEvent.dragStart)
        APEvent.dragEndEvent).velocity = (0, 0) :=
  C9_idle_interval_down_velocity_zero.1 _
    (APReachable.step _ APEvent.dragEndEvent
      (APReachable.step _ APEvent.dragStart APReachable.init)) rfl

end TechWishlist
